import Mathlib

/-!
Shallow embedding of the scclib-sqlite access layer (src/sqld.cc, src/pub/sqlite/sqld.h).

The underlying SQL engine (sqlite3) is out of scope for the repository and is
modelled as an opaque deterministic oracle `Engine`: `prep` models
`sqlite3_prepare_v2` applied to the buffer starting at a byte offset (returning
an optional statement handle -- sqlite may return a null handle on success when
the remaining text is only whitespace or comments -- together with the number of
bytes consumed), `step` models `sqlite3_step` on a handle given how many times
that handle has been stepped so far, and the `column*` fields model the typed
column accessors of the engine for the current row.

C++ exceptions are modelled with `Except`; since a thrown exception leaves the
C++ object alive with its fields as they were at the throw point, the error
payload carries the state of the object at that moment.  The two kinds of
`std::runtime_error` thrown by the code are distinguished by their origin, as
in the specification: `engine` wraps `sqlite3_errstr` text, `usage` wraps the
literal precondition-violation messages.

The unbounded C++ `while` loops (`Req::exec_select`, `Req::exec`, the row drain
inside `exec`) are written with an explicit fuel parameter; `none` means the
fuel ran out.  For engines that consume at least one byte per successful
compilation (`Engine.WF`, true of sqlite), a fuel of buffer length + 1 is shown
to suffice for the statement loops.
-/

/-- Result of one `sqlite3_step` call: `SQLITE_ROW`, `SQLITE_DONE`, or an error
code rendered through `sqlite3_errstr`. -/
inductive StepResult where
  | row
  | done
  | err (msg : String)

/-- Successful result of `sqlite3_prepare_v2`: the statement handle written
through `ppStmt` (possibly null when only whitespace/comments were consumed)
and the byte advance `tail - head` reported through `pzTail`. -/
structure PrepOk where
  handle : Option Nat
  consumed : Nat

/-- The external sqlite3 engine as a deterministic oracle.  `prep buf pos`
models compiling the buffer from byte offset `pos`; `step h n` models the
(n+1)-st `sqlite3_step` on handle `h`; `columnCount h` models
`sqlite3_column_count` (a per-statement constant); the remaining fields model
the typed `sqlite3_column_*` readers for the row the handle currently sits on.
The C `double` of `sqlite3_column_double` is treated as an opaque value that
the layer passes through without inspecting; its carrier here is `Int`. -/
structure Engine where
  prep : String → Nat → Except String PrepOk
  step : Nat → Nat → StepResult
  columnCount : Nat → Nat
  columnName : Nat → Nat → String
  columnText : Nat → Nat → String
  columnInt : Nat → Nat → Int
  columnInt64 : Nat → Nat → Int
  columnReal : Nat → Nat → Int
  columnBlob : Nat → Nat → List Nat

/-- A well-formed engine consumes at least one byte whenever it successfully
compiles from an offset strictly inside the buffer.  sqlite3 satisfies this:
`pzTail` always moves past the compiled statement or the consumed trailing
whitespace. -/
def Engine.WF (e : Engine) : Prop :=
  ∀ buf pos ret, pos < buf.length → e.prep buf pos = .ok ret → 1 ≤ ret.consumed

/-- The two error kinds of the layer: `engine` carries the sqlite diagnostic
text (`sqlite3_errstr`), `usage` carries the literal message of a
precondition-violation `std::runtime_error` thrown by the layer itself. -/
inductive SqldError where
  | engine (msg : String)
  | usage (msg : String)

/-- The state of a `Req` (the StatementStream): the SQL text accumulated in
`m_sql`, the cursor `m_pos`, the optional compiled handle `m_stmt`, and the
current column count `m_cols` (an `int` in the source, always the value of
`sqlite3_column_count`, hence modelled as `Nat`).  `steps` is the engine-side
step counter of the current handle, needed to drive the `step` oracle. -/
structure ReqState where
  sql : String
  pos : Nat
  stmt : Option Nat
  cols : Nat
  steps : Nat

/-- Errors thrown by `Req` operations carry the object state at the throw. -/
abbrev ReqErr := SqldError × ReqState

/-- A freshly constructed `Req`: `m_stmt = nullptr`, `m_pos = 0`, `m_cols = 0`. -/
def ReqState.init : ReqState := ⟨"", 0, none, 0, 0⟩

/-- `Req::finalize`: release the compiled handle if any. -/
def Req.finalize (s : ReqState) : ReqState := { s with stmt := none }

/-- `Req::clear`: finalize, empty the sql buffer, rewind, zero the columns. -/
def Req.clear (s : ReqState) : ReqState :=
  { Req.finalize s with sql := "", pos := 0, cols := 0 }

/-- `Req::reset`: finalize, rewind, zero the columns, keep the buffer. -/
def Req.reset (s : ReqState) : ReqState :=
  { Req.finalize s with pos := 0, cols := 0 }

/-- `m_sql << t`: append text to the sql stream. -/
def Req.append (t : String) (s : ReqState) : ReqState :=
  { s with sql := s.sql ++ t }

/-- `Req::prepare`: finalize the previous statement; if the cursor is at or
past the end of the buffer do nothing more; otherwise call the engine from the
cursor, fail with the engine diagnostic on a non-OK return, and otherwise store
the (possibly null) handle and advance the cursor by the reported consumption,
which may move it past the end of the buffer. -/
def Req.prepare (e : Engine) (s : ReqState) : Except ReqErr ReqState :=
  let s := Req.finalize s
  if s.sql.length ≤ s.pos then
    .ok s
  else
    match e.prep s.sql s.pos with
    | .error m => .error (.engine m, s)
    | .ok ret => .ok { s with stmt := ret.handle, pos := s.pos + ret.consumed, steps := 0 }

/-- The `while (1)` loop body of `Req::exec_select`, with explicit fuel. -/
def Req.execSelectLoop (e : Engine) : Nat → ReqState → Option (Except ReqErr (Nat × ReqState))
  | 0, _ => none
  | fuel + 1, s =>
    match Req.prepare e s with
    | .error err => some (.error err)
    | .ok s' =>
      match s'.stmt with
      | none => some (.ok (0, s'))
      | some h =>
        match e.step h s'.steps with
        | .done => Req.execSelectLoop e fuel { s' with steps := s'.steps + 1 }
        | .row =>
          some (.ok (e.columnCount h,
            { s' with cols := e.columnCount h, steps := s'.steps + 1 }))
        | .err m => some (.error (.engine m, { s' with steps := s'.steps + 1 }))

/-- `Req::exec_select`: reject a call made while row data is current, then run
the compile/step loop.  Fuel `length + 1` is enough for any `Engine.WF`. -/
def Req.exec_select (e : Engine) (s : ReqState) : Option (Except ReqErr (Nat × ReqState)) :=
  if s.cols ≠ 0 then
    some (.error (.usage "exec_select() called with current row data", s))
  else
    Req.execSelectLoop e (s.sql.length + 1) s

/-- `Req::next_row`: require a compiled handle and current row data, then step
the handle: `SQLITE_DONE` zeroes the column count and returns 0 (the handle is
not finalized), `SQLITE_ROW` returns the engine column count, anything else is
an engine error. -/
def Req.next_row (e : Engine) (s : ReqState) : Except ReqErr (Nat × ReqState) :=
  match s.stmt with
  | none => .error (.usage "next_row() called with invalid statement", s)
  | some h =>
    if s.cols = 0 then
      .error (.usage "next_row() called without current row data", s)
    else
      match e.step h s.steps with
      | .done => .ok (0, { s with cols := 0, steps := s.steps + 1 })
      | .row => .ok (e.columnCount h, { s with steps := s.steps + 1 })
      | .err m => .error (.engine m, { s with steps := s.steps + 1 })

/-- The `while (next_row())` row-draining loop inside `Req::exec`. -/
def Req.drainRows (e : Engine) : Nat → ReqState → Option (Except ReqErr ReqState)
  | 0, _ => none
  | fuel + 1, s =>
    match Req.next_row e s with
    | .error err => some (.error err)
    | .ok (0, s') => some (.ok s')
    | .ok (_ + 1, s') => Req.drainRows e fuel s'

/-- The outer `while (1)` loop of `Req::exec`, with explicit fuel for the
outer loop and `rowFuel` for each row drain. -/
def Req.execLoop (e : Engine) (rowFuel : Nat) : Nat → ReqState → Option (Except ReqErr ReqState)
  | 0, _ => none
  | fuel + 1, s =>
    match Req.exec_select e s with
    | none => none
    | some (.error err) => some (.error err)
    | some (.ok (0, s')) => some (.ok s')
    | some (.ok (_ + 1, s')) =>
      match Req.drainRows e rowFuel s' with
      | none => none
      | some (.error err) => some (.error err)
      | some (.ok s'') => Req.execLoop e rowFuel fuel s''

/-- `Req::exec`: reject a call made while row data is current, then repeatedly
run `exec_select`, draining all rows whenever one yields row data, until it
reports 0. -/
def Req.exec (e : Engine) (rowFuel : Nat) (s : ReqState) : Option (Except ReqErr ReqState) :=
  if s.cols ≠ 0 then
    some (.error (.usage "exec() called with current row data", s))
  else
    Req.execLoop e rowFuel (s.sql.length + 1) s

/-- `Req::col_name` (both overloads produce the same string). -/
def Req.col_name (e : Engine) (s : ReqState) (col : Int) : Except ReqErr String :=
  match s.stmt with
  | none => .error (.usage "column operation called with invalid statement", s)
  | some h =>
    if s.cols = 0 then
      .error (.usage "column operation called when row not available", s)
    else if col < 0 ∨ (s.cols : Int) ≤ col then
      .error (.usage "column operation called with invalid column number", s)
    else
      .ok (e.columnName h col.toNat)

/-- `Req::col_text` (both overloads produce the same string). -/
def Req.col_text (e : Engine) (s : ReqState) (col : Int) : Except ReqErr String :=
  match s.stmt with
  | none => .error (.usage "column operation called with invalid statement", s)
  | some h =>
    if s.cols = 0 then
      .error (.usage "column operation called when row not available", s)
    else if col < 0 ∨ (s.cols : Int) ≤ col then
      .error (.usage "column operation called with invalid column number", s)
    else
      .ok (e.columnText h col.toNat)

/-- `Req::col_int`. -/
def Req.col_int (e : Engine) (s : ReqState) (col : Int) : Except ReqErr Int :=
  match s.stmt with
  | none => .error (.usage "column operation called with invalid statement", s)
  | some h =>
    if s.cols = 0 then
      .error (.usage "column operation called when row not available", s)
    else if col < 0 ∨ (s.cols : Int) ≤ col then
      .error (.usage "column operation called with invalid column number", s)
    else
      .ok (e.columnInt h col.toNat)

/-- `Req::col_int64`. -/
def Req.col_int64 (e : Engine) (s : ReqState) (col : Int) : Except ReqErr Int :=
  match s.stmt with
  | none => .error (.usage "column operation called with invalid statement", s)
  | some h =>
    if s.cols = 0 then
      .error (.usage "column operation called when row not available", s)
    else if col < 0 ∨ (s.cols : Int) ≤ col then
      .error (.usage "column operation called with invalid column number", s)
    else
      .ok (e.columnInt64 h col.toNat)

/-- `Req::col_real` (the engine double is passed through untouched). -/
def Req.col_real (e : Engine) (s : ReqState) (col : Int) : Except ReqErr Int :=
  match s.stmt with
  | none => .error (.usage "column operation called with invalid statement", s)
  | some h =>
    if s.cols = 0 then
      .error (.usage "column operation called when row not available", s)
    else if col < 0 ∨ (s.cols : Int) ≤ col then
      .error (.usage "column operation called with invalid column number", s)
    else
      .ok (e.columnReal h col.toNat)

/-- `Req::col_blob`: the engine-reported byte sequence of the blob (the source
copies `sqlite3_column_bytes` bytes from the `sqlite3_column_blob` buffer;
by the engine contract that is exactly the blob value). -/
def Req.col_blob (e : Engine) (s : ReqState) (col : Int) : Except ReqErr (List Nat) :=
  match s.stmt with
  | none => .error (.usage "column operation called with invalid statement", s)
  | some h =>
    if s.cols = 0 then
      .error (.usage "column operation called when row not available", s)
    else if col < 0 ∨ (s.cols : Int) ≤ col then
      .error (.usage "column operation called with invalid column number", s)
    else
      .ok (e.columnBlob h col.toNat)

/-- The state of a `Trans`: the `m_active` flag (the connection reference has
no model-relevant state: the engine oracle is passed separately). -/
structure TransState where
  active : Bool

/-- Errors thrown by `Trans` operations carry the object state at the throw;
the short-lived `Req` of the operation is destroyed during unwinding. -/
abbrev TransErr := SqldError × TransState

/-- `Trans::Trans`: starts inactive. -/
def TransState.init : TransState := ⟨false⟩

/-- A short-lived `Req` holding one statement text, as built by the `Trans`
operations (`Req r(m_conn); r.sql() << text;`). -/
def Req.forText (t : String) : ReqState := ⟨t, 0, none, 0, 0⟩

/-- `Trans::begin`: usage error if already active, otherwise execute `BEGIN;`
through a private `Req` and set the flag on success. -/
def Trans.begin (e : Engine) (rowFuel : Nat) (t : TransState) :
    Option (Except TransErr TransState) :=
  if t.active then
    some (.error (.usage "begin() transaction when already active", t))
  else
    match Req.exec e rowFuel (Req.forText "BEGIN;") with
    | none => none
    | some (.error err) => some (.error (err.1, t))
    | some (.ok _) => some (.ok ⟨true⟩)

/-- `Trans::commit`: usage error if not active, otherwise execute `COMMIT;`
through a private `Req` and clear the flag on success. -/
def Trans.commit (e : Engine) (rowFuel : Nat) (t : TransState) :
    Option (Except TransErr TransState) :=
  if !t.active then
    some (.error (.usage "commit() transaction when not active", t))
  else
    match Req.exec e rowFuel (Req.forText "COMMIT;") with
    | none => none
    | some (.error err) => some (.error (err.1, t))
    | some (.ok _) => some (.ok ⟨false⟩)

/-- `Trans::abort`: usage error if not active, otherwise execute `ROLLBACK;`
through a private `Req` and clear the flag on success. -/
def Trans.abort (e : Engine) (rowFuel : Nat) (t : TransState) :
    Option (Except TransErr TransState) :=
  if !t.active then
    some (.error (.usage "abort() transaction when not active", t))
  else
    match Req.exec e rowFuel (Req.forText "ROLLBACK;") with
    | none => none
    | some (.error err) => some (.error (err.1, t))
    | some (.ok _) => some (.ok ⟨false⟩)

/-- `Trans::~Trans`: call `abort()` when still active.  The destructor body
has no handler, so an `.error` outcome here is an exception escaping the
destructor body (which, the destructor being implicitly `noexcept` in C++11,
terminates the program). -/
def Trans.destruct (e : Engine) (rowFuel : Nat) (t : TransState) :
    Option (Except TransErr TransState) :=
  if t.active then Trans.abort e rowFuel t else some (.ok t)

/-- An oracle engine on which every compilation succeeds, consumes the whole
remaining buffer plus the terminating NUL, and every statement steps straight
to `SQLITE_DONE` (the behaviour of sqlite on DDL/DML and transaction-control
statements). -/
def ddlEngine : Engine where
  prep buf pos := .ok ⟨some 0, buf.length + 1 - pos⟩
  step _ _ := .done
  columnCount _ := 0
  columnName _ _ := ""
  columnText _ _ := ""
  columnInt _ _ := 0
  columnInt64 _ _ := 0
  columnReal _ _ := 0
  columnBlob _ _ := []

/-- An oracle engine whose single statement yields one row of two columns
named a and b, then completes: step 0 is `SQLITE_ROW`, every later step is
`SQLITE_DONE`. -/
def rowEngine : Engine where
  prep buf pos := .ok ⟨some 0, buf.length + 1 - pos⟩
  step _ n := if n = 0 then .row else .done
  columnCount _ := 2
  columnName _ i := if i = 0 then "a" else "b"
  columnText _ _ := "v"
  columnInt _ _ := 7
  columnInt64 _ _ := 281474976710656
  columnReal _ _ := 3
  columnBlob _ _ := [222, 173, 190, 239]

/-- An oracle engine that reports no statement (a null handle) for any
compilation while still consuming bytes: sqlite behaves this way when the
remaining text is only whitespace or comments. -/
def whitespaceEngine : Engine where
  prep buf pos := .ok ⟨none, buf.length + 1 - pos⟩
  step _ _ := .done
  columnCount _ := 0
  columnName _ _ := ""
  columnText _ _ := ""
  columnInt _ _ := 0
  columnInt64 _ _ := 0
  columnReal _ _ := 0
  columnBlob _ _ := []

/-- An oracle engine on which stepping any statement fails: sqlite behaves
this way for an explicit `ROLLBACK;` after the engine already rolled the
transaction back on its own (SQLITE_ERROR, "cannot rollback - no transaction
is active"). -/
def rollbackFailEngine : Engine where
  prep buf pos := .ok ⟨some 0, buf.length + 1 - pos⟩
  step _ _ := .err "cannot rollback - no transaction is active"
  columnCount _ := 0
  columnName _ _ := ""
  columnText _ _ := ""
  columnInt _ _ := 0
  columnInt64 _ _ := 0
  columnReal _ _ := 0
  columnBlob _ _ := []

/-- Whether a result is a precondition-violation (`UsageError`) failure. -/
def IsUsageErr {α : Type} (r : Except ReqErr α) : Prop :=
  match r with
  | .error (SqldError.usage _, _) => True
  | _ => False

/-- The `Req` object state after an `exec_select` or `next_row` call returns
or throws (a C++ exception leaves the object alive in its state at the throw). -/
def selOut (r : Except ReqErr (Nat × ReqState)) : ReqState :=
  match r with
  | .error (_, u) => u
  | .ok (_, u) => u

/-- The `Req` object state after an `exec` call returns or throws. -/
def execOut (r : Except ReqErr ReqState) : ReqState :=
  match r with
  | .error (_, u) => u
  | .ok u => u

/-- The column-count invariant of the specification: a non-zero stored column
count implies a compiled statement handle exists. -/
def ColsInv (s : ReqState) : Prop := s.cols ≠ 0 → s.stmt ≠ none

/-- The statement-by-statement loop that the specification describes for
`execSelect`, as a relation between the entry state and the outcome: compile
the next statement; if no compiled statement results, return 0; step it; on
"no rows produced" continue with the next statement; on "row available"
capture the engine column count, store it, and return it; any other engine
outcome is an engine error. -/
inductive ExecSelectSpec (e : Engine) : ReqState → Except ReqErr (Nat × ReqState) → Prop where
  | noMore (s s' : ReqState) :
      Req.prepare e s = .ok s' → s'.stmt = none →
      ExecSelectSpec e s (.ok (0, s'))
  | compileFail (s : ReqState) (err : ReqErr) :
      Req.prepare e s = .error err →
      ExecSelectSpec e s (.error err)
  | skipStatement (s s' : ReqState) (h : Nat) (out : Except ReqErr (Nat × ReqState)) :
      Req.prepare e s = .ok s' → s'.stmt = some h → e.step h s'.steps = .done →
      ExecSelectSpec e { s' with steps := s'.steps + 1 } out →
      ExecSelectSpec e s out
  | rowReady (s s' : ReqState) (h : Nat) :
      Req.prepare e s = .ok s' → s'.stmt = some h → e.step h s'.steps = .row →
      ExecSelectSpec e s
        (.ok (e.columnCount h, { s' with cols := e.columnCount h, steps := s'.steps + 1 }))
  | stepFail (s s' : ReqState) (h : Nat) (m : String) :
      Req.prepare e s = .ok s' → s'.stmt = some h → e.step h s'.steps = .err m →
      ExecSelectSpec e s (.error (.engine m, { s' with steps := s'.steps + 1 }))

/-- Reachability of `Req` states through the public operations (buffer
appends, `clear`, `reset`, `exec_select`, `next_row`, `exec`), keeping the
object state at a throw as well as at a normal return. -/
inductive Reaches (e : Engine) : ReqState → ReqState → Prop where
  | refl (s : ReqState) : Reaches e s s
  | append (s u : ReqState) (t : String) : Reaches e s u → Reaches e s (Req.append t u)
  | clear (s u : ReqState) : Reaches e s u → Reaches e s (Req.clear u)
  | reset (s u : ReqState) : Reaches e s u → Reaches e s (Req.reset u)
  | execSelect (s u : ReqState) (r : Except ReqErr (Nat × ReqState)) :
      Reaches e s u → Req.exec_select e u = some r → Reaches e s (selOut r)
  | nextRow (s u : ReqState) : Reaches e s u → Reaches e s (selOut (Req.next_row e u))
  | exec (s u : ReqState) (rowFuel : Nat) (r : Except ReqErr ReqState) :
      Reaches e s u → Req.exec e rowFuel u = some r → Reaches e s (execOut r)

/-- The transaction-control statement kinds a `Trans` can issue. -/
inductive TxKind where
  | begin
  | commit
  | rollback

/-- Whether a history of successfully issued transaction-control statements
ends in a BEGIN that no COMMIT or ROLLBACK has matched. -/
def openTx (l : List TxKind) : Bool :=
  List.foldl (fun _ k => match k with | TxKind.begin => true | _ => false) false l

/-- Reachability of `Trans` states from construction through `begin`,
`commit` and `abort`, recording the statements the operations successfully
issued; a failing operation leaves the object in the state carried by the
thrown error and issues nothing. -/
inductive TransTrace (e : Engine) (rowFuel : Nat) : TransState → List TxKind → Prop where
  | init : TransTrace e rowFuel TransState.init []
  | beginOk (t t' : TransState) (l : List TxKind) :
      TransTrace e rowFuel t l → Trans.begin e rowFuel t = some (.ok t') →
      TransTrace e rowFuel t' (l ++ [TxKind.begin])
  | beginErr (t t' : TransState) (l : List TxKind) (er : SqldError) :
      TransTrace e rowFuel t l → Trans.begin e rowFuel t = some (.error (er, t')) →
      TransTrace e rowFuel t' l
  | commitOk (t t' : TransState) (l : List TxKind) :
      TransTrace e rowFuel t l → Trans.commit e rowFuel t = some (.ok t') →
      TransTrace e rowFuel t' (l ++ [TxKind.commit])
  | commitErr (t t' : TransState) (l : List TxKind) (er : SqldError) :
      TransTrace e rowFuel t l → Trans.commit e rowFuel t = some (.error (er, t')) →
      TransTrace e rowFuel t' l
  | abortOk (t t' : TransState) (l : List TxKind) :
      TransTrace e rowFuel t l → Trans.abort e rowFuel t = some (.ok t') →
      TransTrace e rowFuel t' (l ++ [TxKind.rollback])
  | abortErr (t t' : TransState) (l : List TxKind) (er : SqldError) :
      TransTrace e rowFuel t l → Trans.abort e rowFuel t = some (.error (er, t')) →
      TransTrace e rowFuel t' l

theorem prepare_at_end (e : Engine) (s : ReqState) (h : s.sql.length ≤ s.pos) :
    Req.prepare e s = .ok (Req.finalize s) := by
  unfold Req.prepare
  simp [Req.finalize, h]

theorem prepare_mid_ok (e : Engine) (s : ReqState) (ret : PrepOk)
    (h : s.pos < s.sql.length) (hp : e.prep s.sql s.pos = .ok ret) :
    Req.prepare e s =
      .ok { s with stmt := ret.handle, pos := s.pos + ret.consumed, steps := 0 } := by
  unfold Req.prepare
  simp only [Req.finalize]
  rw [if_neg (by simpa using Nat.not_le_of_lt h)]
  simp [hp]

theorem prepare_mid_err (e : Engine) (s : ReqState) (m : String)
    (h : s.pos < s.sql.length) (hp : e.prep s.sql s.pos = .error m) :
    Req.prepare e s = .error (.engine m, Req.finalize s) := by
  unfold Req.prepare
  simp only [Req.finalize]
  rw [if_neg (by simpa using Nat.not_le_of_lt h)]
  simp [hp]

theorem prepare_ok_inv (e : Engine) (s s' : ReqState) (h : Req.prepare e s = .ok s') :
    s'.sql = s.sql ∧ s'.cols = s.cols ∧
    (s.sql.length ≤ s.pos → s' = Req.finalize s) ∧
    (s.pos < s.sql.length → ∃ ret, e.prep s.sql s.pos = .ok ret ∧
      s' = { s with stmt := ret.handle, pos := s.pos + ret.consumed, steps := 0 }) := by
  by_cases hb : s.sql.length ≤ s.pos
  · rw [prepare_at_end e s hb] at h
    obtain rfl : Req.finalize s = s' := by simpa using h
    exact ⟨rfl, rfl, fun _ => rfl, fun hlt => absurd hb (Nat.not_le_of_lt hlt)⟩
  · have hlt : s.pos < s.sql.length := Nat.lt_of_not_le hb
    cases hp : e.prep s.sql s.pos with
    | error m => rw [prepare_mid_err e s m hlt hp] at h; cases h
    | ok ret =>
      rw [prepare_mid_ok e s ret hlt hp] at h
      obtain rfl : _ = s' := by simpa using h
      exact ⟨rfl, rfl, fun hle => absurd hle hb, fun _ => ⟨ret, rfl, rfl⟩⟩

theorem prepare_err_inv (e : Engine) (s : ReqState) (err : ReqErr)
    (h : Req.prepare e s = .error err) :
    s.pos < s.sql.length ∧ err.2 = Req.finalize s ∧
    ∃ m, e.prep s.sql s.pos = .error m ∧ err.1 = .engine m := by
  by_cases hb : s.sql.length ≤ s.pos
  · rw [prepare_at_end e s hb] at h; cases h
  · have hlt : s.pos < s.sql.length := Nat.lt_of_not_le hb
    cases hp : e.prep s.sql s.pos with
    | error m =>
      rw [prepare_mid_err e s m hlt hp] at h
      obtain rfl : (SqldError.engine m, Req.finalize s) = err := by simpa using h
      exact ⟨hlt, rfl, m, rfl, rfl⟩
    | ok ret => rw [prepare_mid_ok e s ret hlt hp] at h; cases h

/-- Claim C6: for every stream whose column count is greater than 0, calling
exec_select() fails with a UsageError and the stream state (buffer, offset,
handle, column count) is unchanged. -/
theorem exec_select_with_row_usage_error (e : Engine) (s : ReqState) (h : 0 < s.cols) :
    Req.exec_select e s =
      some (.error (.usage "exec_select() called with current row data", s)) := by
  have hne : s.cols ≠ 0 := Nat.pos_iff_ne_zero.mp h
  simp [Req.exec_select, hne]

/-- Witness for C6 at a concrete row-ready state. -/
theorem exec_select_with_row_usage_error_witness :
    Req.exec_select rowEngine ⟨"SELECT 1;", 10, some 0, 2, 1⟩ =
      some (.error (.usage "exec_select() called with current row data",
        ⟨"SELECT 1;", 10, some 0, 2, 1⟩)) :=
  exec_select_with_row_usage_error rowEngine ⟨"SELECT 1;", 10, some 0, 2, 1⟩ (by decide)

/-- Claim C8: from every stream state, clear() empties the buffer, sets the
offset to 0, sets the column count to 0, and releases any compiled handle;
reset() leaves the buffer unchanged, rewinds the offset to 0, sets the column
count to 0, and releases any compiled handle. -/
theorem clear_reset_effects (s : ReqState) :
    (Req.clear s).sql = "" ∧ (Req.clear s).pos = 0 ∧ (Req.clear s).cols = 0 ∧
      (Req.clear s).stmt = none ∧
      (Req.reset s).sql = s.sql ∧ (Req.reset s).pos = 0 ∧ (Req.reset s).cols = 0 ∧
      (Req.reset s).stmt = none := by
  simp [Req.clear, Req.reset, Req.finalize]

/-- Claim C10: for every stream whose column count is greater than 0, calling
exec() fails with a UsageError, with the stream state unchanged and no engine
interaction (the result does not depend on the engine or on the fuel). -/
theorem exec_with_row_usage_error (e : Engine) (rowFuel : Nat) (s : ReqState)
    (h : 0 < s.cols) :
    Req.exec e rowFuel s =
      some (.error (.usage "exec() called with current row data", s)) := by
  have hne : s.cols ≠ 0 := Nat.pos_iff_ne_zero.mp h
  simp [Req.exec, hne]

/-- Witness for C10 at a concrete row-ready state. -/
theorem exec_with_row_usage_error_witness :
    Req.exec rowEngine 3 ⟨"SELECT 1;", 10, some 0, 2, 1⟩ =
      some (.error (.usage "exec() called with current row data",
        ⟨"SELECT 1;", 10, some 0, 2, 1⟩)) :=
  exec_with_row_usage_error rowEngine 3 ⟨"SELECT 1;", 10, some 0, 2, 1⟩ (by decide)

/-- Claim C2 as stated is false on the code: when next_row() steps a RowReady
stream and the engine reports completion, the column count becomes 0 and 0 is
returned, but the compiled handle is retained (Req::next_row never calls
finalize), so the stream is not in the Idle state the specification defines as
"no compiled handle and column count 0". -/
theorem next_row_done_keeps_handle_cex :
    Req.next_row rowEngine ⟨"SELECT 1;", 10, some 0, 2, 1⟩ =
      .ok (0, ⟨"SELECT 1;", 10, some 0, 0, 2⟩) ∧
      (⟨"SELECT 1;", 10, some 0, 0, 2⟩ : ReqState).stmt ≠ none :=
  ⟨rfl, by decide⟩

/-- Claim C2 amended: for every stream in the RowReady state, when next_row()
steps the statement and the engine reports completion, next_row() sets the
column count to 0 and returns 0, retaining the compiled handle unchanged (it
is released only by the next prepare, clear, reset, or destruction). -/
theorem next_row_done_clears_cols (e : Engine) (s : ReqState) (h : Nat)
    (hstmt : s.stmt = some h) (hcols : 0 < s.cols) (hdone : e.step h s.steps = .done) :
    Req.next_row e s = .ok (0, { s with cols := 0, steps := s.steps + 1 }) ∧
      ({ s with cols := 0, steps := s.steps + 1 } : ReqState).stmt = s.stmt := by
  have hne : s.cols ≠ 0 := Nat.pos_iff_ne_zero.mp hcols
  simp [Req.next_row, hstmt, hne, hdone]

/-- Witness for the amended C2 at a concrete RowReady state. -/
theorem next_row_done_clears_cols_witness :
    Req.next_row rowEngine ⟨"SELECT 1;", 10, some 0, 2, 1⟩ =
      .ok (0, ⟨"SELECT 1;", 10, some 0, 0, 2⟩) :=
  (next_row_done_clears_cols rowEngine ⟨"SELECT 1;", 10, some 0, 2, 1⟩ 0 rfl
    (by decide) rfl).1

/-- Claim C4 as stated is false on the code: prepare() can produce no compiled
handle even though the offset is strictly inside the buffer, because the
engine itself may report no statement (a null handle) when the remaining text
is only whitespace or comments, while still consuming bytes (the source
comment on Req::exec_select anticipates exactly this: "there is only
whitespace left"). -/
theorem prepare_no_handle_inside_buffer_cex :
    Req.prepare whitespaceEngine (Req.forText "  ") = .ok ⟨"  ", 3, none, 0, 0⟩ ∧
      (Req.forText "  ").pos < (Req.forText "  ").sql.length ∧
      (⟨"  ", 3, none, 0, 0⟩ : ReqState).stmt = none :=
  ⟨rfl, by decide, rfl⟩

/-- Claim C4 amended: prepare() produces "no more statements" without
consulting the engine exactly when the offset is at or past the buffer length
(leaving the offset unchanged); otherwise it asks the engine to compile from
the offset and, on success, stores the handle the engine returned (which may
itself be absent when only whitespace or comments remained) and advances the
offset by exactly the number of bytes the engine reports consumed, possibly
moving it past the buffer length. -/
theorem prepare_offset_spec (e : Engine) (s : ReqState) :
    (s.sql.length ≤ s.pos →
      Req.prepare e s = .ok (Req.finalize s) ∧ (Req.finalize s).pos = s.pos ∧
        (Req.finalize s).stmt = none) ∧
    (s.pos < s.sql.length → ∀ ret, e.prep s.sql s.pos = .ok ret →
      Req.prepare e s =
        .ok { s with stmt := ret.handle, pos := s.pos + ret.consumed, steps := 0 }) := by
  refine ⟨fun hle => ⟨prepare_at_end e s hle, rfl, rfl⟩, fun hlt ret hp => ?_⟩
  exact prepare_mid_ok e s ret hlt hp

/-- Witness for the amended C4: the at-end branch and the engine-advance
branch at concrete inputs. -/
theorem prepare_offset_spec_witness :
    Req.prepare ddlEngine ⟨"X;", 5, some 3, 0, 2⟩ = .ok ⟨"X;", 5, none, 0, 2⟩ ∧
      Req.prepare ddlEngine (Req.forText "X;") = .ok ⟨"X;", 3, some 0, 0, 0⟩ :=
  ⟨((prepare_offset_spec ddlEngine ⟨"X;", 5, some 3, 0, 2⟩).1 (by decide)).1,
    (prepare_offset_spec ddlEngine (Req.forText "X;")).2 (by decide) ⟨some 0, 3⟩ rfl⟩

/-- Claim C3 exhibit (code bug): a Trans destroyed while active calls abort()
with no exception handler, so when the engine fails the forced ROLLBACK (as
sqlite does with SQLITE_ERROR, "cannot rollback - no transaction is active",
after an automatic rollback) the error escapes the destructor body with the
active flag still set, instead of being swallowed as the specification
requires.  In C++11 the implicitly noexcept destructor then terminates the
program. -/
theorem trans_destruct_rollback_error_escapes :
    Trans.destruct rollbackFailEngine 1 ⟨true⟩ =
      some (.error (.engine "cannot rollback - no transaction is active", ⟨true⟩)) :=
  rfl

/-- Claim C7: every column accessor fails with a UsageError exactly when no
compiled handle exists, or the column count is 0, or the index is outside
[0, column count); otherwise it returns the engine typed value for the current
row at that index. -/
theorem col_accessors_usage_spec (e : Engine) (s : ReqState) (i : Int) :
    (IsUsageErr (Req.col_name e s i) ↔
      s.stmt = none ∨ s.cols = 0 ∨ i < 0 ∨ (s.cols : Int) ≤ i) ∧
    (IsUsageErr (Req.col_text e s i) ↔
      s.stmt = none ∨ s.cols = 0 ∨ i < 0 ∨ (s.cols : Int) ≤ i) ∧
    (IsUsageErr (Req.col_int e s i) ↔
      s.stmt = none ∨ s.cols = 0 ∨ i < 0 ∨ (s.cols : Int) ≤ i) ∧
    (IsUsageErr (Req.col_int64 e s i) ↔
      s.stmt = none ∨ s.cols = 0 ∨ i < 0 ∨ (s.cols : Int) ≤ i) ∧
    (IsUsageErr (Req.col_real e s i) ↔
      s.stmt = none ∨ s.cols = 0 ∨ i < 0 ∨ (s.cols : Int) ≤ i) ∧
    (IsUsageErr (Req.col_blob e s i) ↔
      s.stmt = none ∨ s.cols = 0 ∨ i < 0 ∨ (s.cols : Int) ≤ i) ∧
    (∀ h, s.stmt = some h → s.cols ≠ 0 → 0 ≤ i → i < (s.cols : Int) →
      Req.col_name e s i = .ok (e.columnName h i.toNat) ∧
      Req.col_text e s i = .ok (e.columnText h i.toNat) ∧
      Req.col_int e s i = .ok (e.columnInt h i.toNat) ∧
      Req.col_int64 e s i = .ok (e.columnInt64 h i.toNat) ∧
      Req.col_real e s i = .ok (e.columnReal h i.toNat) ∧
      Req.col_blob e s i = .ok (e.columnBlob h i.toNat)) := by
  have hval : ∀ h, s.stmt = some h → s.cols ≠ 0 → 0 ≤ i → i < (s.cols : Int) →
      Req.col_name e s i = .ok (e.columnName h i.toNat) ∧
      Req.col_text e s i = .ok (e.columnText h i.toNat) ∧
      Req.col_int e s i = .ok (e.columnInt h i.toNat) ∧
      Req.col_int64 e s i = .ok (e.columnInt64 h i.toNat) ∧
      Req.col_real e s i = .ok (e.columnReal h i.toNat) ∧
      Req.col_blob e s i = .ok (e.columnBlob h i.toNat) := by
    intro h hsome hcne hge hlt
    have hno : ¬(i < 0 ∨ (s.cols : Int) ≤ i) := by omega
    simp [Req.col_name, Req.col_text, Req.col_int, Req.col_int64, Req.col_real,
      Req.col_blob, hsome, hcne, hno]
  refine ⟨?_, ?_, ?_, ?_, ?_, ?_, hval⟩
  all_goals
    cases hs : s.stmt with
    | none =>
      simp [Req.col_name, Req.col_text, Req.col_int, Req.col_int64, Req.col_real,
        Req.col_blob, hs, IsUsageErr]
    | some h =>
      by_cases hc : s.cols = 0
      · simp [Req.col_name, Req.col_text, Req.col_int, Req.col_int64, Req.col_real,
          Req.col_blob, hs, hc, IsUsageErr]
      · by_cases hr : i < 0 ∨ (s.cols : Int) ≤ i
        · simp [Req.col_name, Req.col_text, Req.col_int, Req.col_int64, Req.col_real,
            Req.col_blob, hs, hc, hr, IsUsageErr]
        · simp [Req.col_name, Req.col_text, Req.col_int, Req.col_int64, Req.col_real,
            Req.col_blob, hs, hc, hr, IsUsageErr]

/-- Witness for C7 at a concrete RowReady state with two columns. -/
theorem col_accessors_usage_spec_witness :
    Req.col_name rowEngine ⟨"SELECT * FROM t;", 17, some 0, 2, 1⟩ 0 = .ok "a" ∧
      Req.col_int64 rowEngine ⟨"SELECT * FROM t;", 17, some 0, 2, 1⟩ 1 =
        .ok 281474976710656 :=
  ⟨((col_accessors_usage_spec rowEngine ⟨"SELECT * FROM t;", 17, some 0, 2, 1⟩ 0).2.2.2.2.2.2
      0 rfl (by decide) (by decide) (by decide)).1,
    ((col_accessors_usage_spec rowEngine ⟨"SELECT * FROM t;", 17, some 0, 2, 1⟩ 1).2.2.2.2.2.2
      0 rfl (by decide) (by decide) (by decide)).2.2.2.1⟩

theorem execSelectLoop_sound (e : Engine) :
    ∀ fuel s out, Req.execSelectLoop e fuel s = some out → ExecSelectSpec e s out := by
  intro fuel
  induction fuel with
  | zero => intro s out h; cases h
  | succ n ih =>
    intro s out h
    simp only [Req.execSelectLoop] at h
    cases hp : Req.prepare e s with
    | error err =>
      simp only [hp] at h
      obtain rfl := Option.some.inj h
      exact ExecSelectSpec.compileFail s err hp
    | ok s' =>
      obtain ⟨sq, p, st, c, k⟩ := s'
      simp only [hp] at h
      cases st with
      | none =>
        obtain rfl := Option.some.inj h
        exact ExecSelectSpec.noMore s ⟨sq, p, none, c, k⟩ hp rfl
      | some hh =>
        replace h : (match e.step hh k with
          | StepResult.done => Req.execSelectLoop e n ⟨sq, p, some hh, c, k + 1⟩
          | StepResult.row =>
            some (.ok (e.columnCount hh, ⟨sq, p, some hh, e.columnCount hh, k + 1⟩))
          | StepResult.err m =>
            some (.error (.engine m, ⟨sq, p, some hh, c, k + 1⟩))) = some out := h
        cases hstep : e.step hh k with
        | done =>
          simp only [hstep] at h
          exact ExecSelectSpec.skipStatement s ⟨sq, p, some hh, c, k⟩ hh out hp rfl hstep
            (ih _ _ h)
        | row =>
          simp only [hstep] at h
          obtain rfl := Option.some.inj h
          exact ExecSelectSpec.rowReady s ⟨sq, p, some hh, c, k⟩ hh hp rfl hstep
        | err m =>
          simp only [hstep] at h
          obtain rfl := Option.some.inj h
          exact ExecSelectSpec.stepFail s ⟨sq, p, some hh, c, k⟩ hh m hp rfl hstep

theorem execSelectLoop_succ_ok_some (e : Engine) (n : Nat) (s : ReqState) (sq : String)
    (p c k hh : Nat) (hp : Req.prepare e s = .ok ⟨sq, p, some hh, c, k⟩) :
    Req.execSelectLoop e (n + 1) s =
      (match e.step hh k with
        | StepResult.done => Req.execSelectLoop e n ⟨sq, p, some hh, c, k + 1⟩
        | StepResult.row =>
          some (.ok (e.columnCount hh, ⟨sq, p, some hh, e.columnCount hh, k + 1⟩))
        | StepResult.err m =>
          some (.error (.engine m, ⟨sq, p, some hh, c, k + 1⟩))) := by
  simp only [Req.execSelectLoop, hp]

theorem execSelectLoop_total (e : Engine) (hwf : Engine.WF e) :
    ∀ fuel s, s.sql.length - s.pos + 1 ≤ fuel →
      ∃ out, Req.execSelectLoop e fuel s = some out := by
  intro fuel
  induction fuel with
  | zero => intro s h; omega
  | succ n ih =>
    intro s h
    cases hp : Req.prepare e s with
    | error err =>
      refine ⟨.error err, ?_⟩
      simp only [Req.execSelectLoop, hp]
    | ok s' =>
      obtain ⟨hsql, -, hend, hmid⟩ := prepare_ok_inv e s s' hp
      obtain ⟨sq, p, st, c, k⟩ := s'
      cases st with
      | none =>
        refine ⟨.ok (0, ⟨sq, p, none, c, k⟩), ?_⟩
        simp only [Req.execSelectLoop, hp]
      | some hh =>
        rw [execSelectLoop_succ_ok_some e n s sq p c k hh hp]
        cases hstep : e.step hh k with
        | row => exact ⟨_, rfl⟩
        | err m => exact ⟨_, rfl⟩
        | done =>
          by_cases hb : s.sql.length ≤ s.pos
          · have hstmt := congrArg ReqState.stmt (hend hb)
            simp [Req.finalize] at hstmt
          · have hlt : s.pos < s.sql.length := Nat.lt_of_not_le hb
            obtain ⟨ret, hpr, heq⟩ := hmid hlt
            have hc1 : 1 ≤ ret.consumed := hwf s.sql s.pos ret hlt hpr
            simp only [ReqState.mk.injEq] at heq
            obtain ⟨h1, h2, -, -, -⟩ := heq
            refine ih ⟨sq, p, some hh, c, k + 1⟩ ?_
            show sq.length - p + 1 ≤ n
            subst h1 h2
            omega

/-- Claim C1: for every SQL buffer with no current row, exec_select() realises
exactly the statement-by-statement loop the specification describes
(ExecSelectSpec): compile the next statement; when no compiled statement
results, return 0; step it; when the engine reports the statement produced no
rows, continue with the next statement; when the engine reports a row, capture
the engine column count, store it as the stream column count and return it;
any other engine outcome is an engine error.  For any engine that consumes at
least one byte per successful compilation the loop also terminates within the
allotted fuel. -/
theorem exec_select_meets_loop_spec (e : Engine) (s : ReqState) (hcols : s.cols = 0) :
    (∀ out, Req.exec_select e s = some out → ExecSelectSpec e s out) ∧
    (Engine.WF e → ∃ out, Req.exec_select e s = some out) := by
  have hsel : Req.exec_select e s = Req.execSelectLoop e (s.sql.length + 1) s := by
    simp [Req.exec_select, hcols]
  constructor
  · intro out hout
    rw [hsel] at hout
    exact execSelectLoop_sound e _ s out hout
  · intro hwf
    rw [hsel]
    exact execSelectLoop_total e hwf (s.sql.length + 1) s (by omega)

/-- Witness for C1: a concrete DDL-only buffer reaches the
no-more-statements outcome of the specification loop. -/
theorem exec_select_meets_loop_spec_witness :
    ExecSelectSpec ddlEngine (Req.forText "X;") (.ok (0, ⟨"X;", 3, none, 0, 1⟩)) :=
  (exec_select_meets_loop_spec ddlEngine (Req.forText "X;") rfl).1 _ rfl
theorem colsInv_next_row (e : Engine) (u : ReqState) (hu : ColsInv u) :
    ColsInv (selOut (Req.next_row e u)) := by
  obtain ⟨sq, p, st, c, k⟩ := u
  cases st with
  | none => simpa [Req.next_row, selOut] using hu
  | some h =>
    by_cases hc : c = 0
    · simpa [Req.next_row, hc, selOut] using hu
    · cases hstep : e.step h k with
      | done => simp [Req.next_row, hc, hstep, selOut, ColsInv]
      | row => simp [Req.next_row, hc, hstep, selOut, ColsInv]
      | err m => simp [Req.next_row, hc, hstep, selOut, ColsInv]

theorem colsInv_execSelectLoop (e : Engine) :
    ∀ fuel u r, u.cols = 0 → Req.execSelectLoop e fuel u = some r →
      ColsInv (selOut r) := by
  intro fuel
  induction fuel with
  | zero => intro u r h0 h; cases h
  | succ n ih =>
    intro u r h0 h
    simp only [Req.execSelectLoop] at h
    cases hp : Req.prepare e u with
    | error err =>
      simp only [hp] at h
      obtain rfl := Option.some.inj h
      obtain ⟨-, h2, -⟩ := prepare_err_inv e u err hp
      obtain ⟨em, eu⟩ := err
      simp only at h2
      simp [selOut, ColsInv, h2, Req.finalize, h0]
    | ok s' =>
      have hcols' : s'.cols = 0 := by
        obtain ⟨-, hcc, -, -⟩ := prepare_ok_inv e u s' hp
        omega
      obtain ⟨sq, p, st, c, k⟩ := s'
      have hc0 : c = 0 := hcols'
      subst hc0
      simp only [hp] at h
      cases st with
      | none =>
        obtain rfl := Option.some.inj h
        simp [selOut, ColsInv]
      | some hh =>
        replace h : (match e.step hh k with
          | StepResult.done => Req.execSelectLoop e n ⟨sq, p, some hh, 0, k + 1⟩
          | StepResult.row =>
            some (.ok (e.columnCount hh, ⟨sq, p, some hh, e.columnCount hh, k + 1⟩))
          | StepResult.err m =>
            some (.error (.engine m, ⟨sq, p, some hh, 0, k + 1⟩))) = some r := h
        cases hstep : e.step hh k with
        | done =>
          simp only [hstep] at h
          exact ih ⟨sq, p, some hh, 0, k + 1⟩ r rfl h
        | row =>
          simp only [hstep] at h
          obtain rfl := Option.some.inj h
          simp [selOut, ColsInv]
        | err m =>
          simp only [hstep] at h
          obtain rfl := Option.some.inj h
          simp [selOut, ColsInv]

theorem colsInv_exec_select (e : Engine) (u : ReqState)
    (r : Except ReqErr (Nat × ReqState)) (hu : ColsInv u)
    (h : Req.exec_select e u = some r) : ColsInv (selOut r) := by
  unfold Req.exec_select at h
  by_cases hc : u.cols = 0
  · simp only [hc, ne_eq, not_true_eq_false, if_neg, not_false_eq_true, if_false] at h
    exact colsInv_execSelectLoop e _ u r hc h
  · simp only [if_pos hc] at h
    obtain rfl := Option.some.inj h
    simpa [selOut] using hu

theorem colsInv_drainRows (e : Engine) :
    ∀ fuel u r, ColsInv u → Req.drainRows e fuel u = some r →
      ColsInv (execOut r) := by
  intro fuel
  induction fuel with
  | zero => intro u r _ h; cases h
  | succ n ih =>
    intro u r hu h
    simp only [Req.drainRows] at h
    cases hnr : Req.next_row e u with
    | error err =>
      simp only [hnr] at h
      obtain rfl := Option.some.inj h
      have hnext := colsInv_next_row e u hu
      rw [hnr] at hnext
      obtain ⟨em, eu⟩ := err
      simpa [selOut, execOut] using hnext
    | ok pr =>
      obtain ⟨nn, u'⟩ := pr
      simp only [hnr] at h
      have hu' : ColsInv u' := by
        have hnext := colsInv_next_row e u hu
        rw [hnr] at hnext
        simpa [selOut] using hnext
      cases nn with
      | zero =>
        obtain rfl := Option.some.inj h
        simpa [execOut] using hu'
      | succ m => exact ih u' r hu' h

theorem colsInv_execLoop (e : Engine) (rf : Nat) :
    ∀ fuel u r, ColsInv u → Req.execLoop e rf fuel u = some r →
      ColsInv (execOut r) := by
  intro fuel
  induction fuel with
  | zero => intro u r _ h; cases h
  | succ n ih =>
    intro u r hu h
    simp only [Req.execLoop] at h
    cases hx : Req.exec_select e u with
    | none => simp only [hx] at h; cases h
    | some res =>
      simp only [hx] at h
      cases res with
      | error err =>
        obtain rfl := Option.some.inj h
        have hsel := colsInv_exec_select e u _ hu hx
        obtain ⟨em, eu⟩ := err
        simpa [selOut, execOut] using hsel
      | ok pr =>
        obtain ⟨nn, u'⟩ := pr
        have hu' : ColsInv u' := by
          have hsel := colsInv_exec_select e u _ hu hx
          simpa [selOut] using hsel
        cases nn with
        | zero =>
          obtain rfl := Option.some.inj h
          simpa [execOut] using hu'
        | succ m =>
          replace h : (match Req.drainRows e rf u' with
            | none => none
            | some (.error err) => some (.error err)
            | some (.ok s2) => Req.execLoop e rf n s2) = some r := h
          cases hd : Req.drainRows e rf u' with
          | none => simp only [hd] at h; cases h
          | some dres =>
            simp only [hd] at h
            cases dres with
            | error err =>
              obtain rfl := Option.some.inj h
              have hdr := colsInv_drainRows e rf u' _ hu' hd
              obtain ⟨em, eu⟩ := err
              simpa [execOut] using hdr
            | ok s2 =>
              have hs2 : ColsInv s2 := by
                have hdr := colsInv_drainRows e rf u' _ hu' hd
                simpa [execOut] using hdr
              exact ih s2 r hs2 h

theorem colsInv_exec (e : Engine) (rf : Nat) (u : ReqState) (r : Except ReqErr ReqState)
    (hu : ColsInv u) (h : Req.exec e rf u = some r) : ColsInv (execOut r) := by
  unfold Req.exec at h
  by_cases hc : u.cols = 0
  · simp only [hc, ne_eq, not_true_eq_false, if_neg, not_false_eq_true, if_false] at h
    exact colsInv_execLoop e rf _ u r hu h
  · simp only [if_pos hc] at h
    obtain rfl := Option.some.inj h
    simpa [execOut] using hu

/-- Claim C5: after any sequence of buffer appends, clear, reset, exec_select,
next_row and exec operations starting from a state satisfying it (the fresh
Req in particular), a non-zero stored column count implies a compiled
statement handle exists, whether the operation returned normally or threw. -/
theorem cols_nonzero_implies_handle (e : Engine) (s u : ReqState) (hs : ColsInv s)
    (hr : Reaches e s u) : ColsInv u := by
  induction hr with
  | refl => exact hs
  | append u t _ ih => simpa [Req.append, ColsInv] using ih
  | clear u _ _ => simp [Req.clear, Req.finalize, ColsInv]
  | reset u _ _ => simp [Req.reset, Req.finalize, ColsInv]
  | execSelect u r _ hx ih => exact colsInv_exec_select e u r ih hx
  | nextRow u _ ih => exact colsInv_next_row e u ih
  | exec u rf2 r _ hx ih => exact colsInv_exec e rf2 u r ih hx

/-- Witness for C5: from a fresh Req holding a SELECT script, one exec_select
on the row engine reaches a RowReady state, which satisfies the invariant. -/
theorem cols_nonzero_implies_handle_witness :
    ColsInv ⟨"SELECT * FROM t;", 17, some 0, 2, 1⟩ :=
  cols_nonzero_implies_handle rowEngine (Req.forText "SELECT * FROM t;")
    ⟨"SELECT * FROM t;", 17, some 0, 2, 1⟩
    (fun h => (h rfl).elim)
    (Reaches.execSelect _ _ (.ok (2, ⟨"SELECT * FROM t;", 17, some 0, 2, 1⟩))
      (Reaches.refl _) rfl)
theorem begin_ok_inv (e : Engine) (rf : Nat) (t t' : TransState)
    (h : Trans.begin e rf t = some (.ok t')) : t.active = false ∧ t' = ⟨true⟩ := by
  obtain ⟨a⟩ := t
  cases a with
  | true => simp [Trans.begin] at h
  | false =>
    refine ⟨rfl, ?_⟩
    simp only [Trans.begin] at h
    cases hx : Req.exec e rf (Req.forText "BEGIN;") with
    | none => simp only [hx] at h; cases h
    | some res =>
      simp only [hx] at h
      cases res with
      | error err => simp at h
      | ok u => simpa using h.symm

theorem begin_err_inv (e : Engine) (rf : Nat) (t t' : TransState) (er : SqldError)
    (h : Trans.begin e rf t = some (.error (er, t'))) : t' = t := by
  obtain ⟨a⟩ := t
  cases a with
  | true =>
    simp only [Trans.begin] at h
    simp at h
    exact h.2.symm
  | false =>
    simp only [Trans.begin] at h
    cases hx : Req.exec e rf (Req.forText "BEGIN;") with
    | none => simp only [hx] at h; cases h
    | some res =>
      simp only [hx] at h
      cases res with
      | error err => simp at h; exact h.2.symm
      | ok u => simp at h

theorem commit_ok_inv (e : Engine) (rf : Nat) (t t' : TransState)
    (h : Trans.commit e rf t = some (.ok t')) : t.active = true ∧ t' = ⟨false⟩ := by
  obtain ⟨a⟩ := t
  cases a with
  | false => simp [Trans.commit] at h
  | true =>
    refine ⟨rfl, ?_⟩
    simp only [Trans.commit] at h
    cases hx : Req.exec e rf (Req.forText "COMMIT;") with
    | none => simp only [hx] at h; cases h
    | some res =>
      simp only [hx] at h
      cases res with
      | error err => simp at h
      | ok u => simpa using h.symm

theorem commit_err_inv (e : Engine) (rf : Nat) (t t' : TransState) (er : SqldError)
    (h : Trans.commit e rf t = some (.error (er, t'))) : t' = t := by
  obtain ⟨a⟩ := t
  cases a with
  | false =>
    simp only [Trans.commit] at h
    simp at h
    exact h.2.symm
  | true =>
    simp only [Trans.commit] at h
    cases hx : Req.exec e rf (Req.forText "COMMIT;") with
    | none => simp only [hx] at h; cases h
    | some res =>
      simp only [hx] at h
      cases res with
      | error err => simp at h; exact h.2.symm
      | ok u => simp at h

theorem abort_ok_inv (e : Engine) (rf : Nat) (t t' : TransState)
    (h : Trans.abort e rf t = some (.ok t')) : t.active = true ∧ t' = ⟨false⟩ := by
  obtain ⟨a⟩ := t
  cases a with
  | false => simp [Trans.abort] at h
  | true =>
    refine ⟨rfl, ?_⟩
    simp only [Trans.abort] at h
    cases hx : Req.exec e rf (Req.forText "ROLLBACK;") with
    | none => simp only [hx] at h; cases h
    | some res =>
      simp only [hx] at h
      cases res with
      | error err => simp at h
      | ok u => simpa using h.symm

theorem abort_err_inv (e : Engine) (rf : Nat) (t t' : TransState) (er : SqldError)
    (h : Trans.abort e rf t = some (.error (er, t'))) : t' = t := by
  obtain ⟨a⟩ := t
  cases a with
  | false =>
    simp only [Trans.abort] at h
    simp at h
    exact h.2.symm
  | true =>
    simp only [Trans.abort] at h
    cases hx : Req.exec e rf (Req.forText "ROLLBACK;") with
    | none => simp only [hx] at h; cases h
    | some res =>
      simp only [hx] at h
      cases res with
      | error err => simp at h; exact h.2.symm
      | ok u => simp at h

theorem openTx_append (l : List TxKind) (k : TxKind) :
    openTx (l ++ [k]) = match k with | TxKind.begin => true | _ => false := by
  simp [openTx, List.foldl_append]

/-- Claim C9: begin() fails with a UsageError when already active; commit()
and abort() fail with a UsageError when not active; otherwise begin issues
BEGIN through a private Req and sets the flag on success, commit and abort
issue COMMIT and ROLLBACK respectively and clear the flag on success, with a
failing issue propagating the error and leaving the flag unchanged; and along
every reachable Trans history, the active flag is true exactly when the
successfully issued statements end in a BEGIN unmatched by a COMMIT or
ROLLBACK. -/
theorem trans_ops_spec (e : Engine) (rf : Nat) :
    (∀ t : TransState, t.active = true →
      Trans.begin e rf t =
        some (.error (.usage "begin() transaction when already active", t))) ∧
    (∀ t : TransState, t.active = false →
      Trans.commit e rf t =
        some (.error (.usage "commit() transaction when not active", t)) ∧
      Trans.abort e rf t =
        some (.error (.usage "abort() transaction when not active", t))) ∧
    (∀ t : TransState, t.active = false →
      (∀ u, Req.exec e rf (Req.forText "BEGIN;") = some (.ok u) →
        Trans.begin e rf t = some (.ok ⟨true⟩)) ∧
      (∀ err, Req.exec e rf (Req.forText "BEGIN;") = some (.error err) →
        Trans.begin e rf t = some (.error (err.1, t)))) ∧
    (∀ t : TransState, t.active = true →
      (∀ u, Req.exec e rf (Req.forText "COMMIT;") = some (.ok u) →
        Trans.commit e rf t = some (.ok ⟨false⟩)) ∧
      (∀ err, Req.exec e rf (Req.forText "COMMIT;") = some (.error err) →
        Trans.commit e rf t = some (.error (err.1, t))) ∧
      (∀ u, Req.exec e rf (Req.forText "ROLLBACK;") = some (.ok u) →
        Trans.abort e rf t = some (.ok ⟨false⟩)) ∧
      (∀ err, Req.exec e rf (Req.forText "ROLLBACK;") = some (.error err) →
        Trans.abort e rf t = some (.error (err.1, t)))) ∧
    (∀ t l, TransTrace e rf t l → t.active = openTx l) := by
  refine ⟨?_, ?_, ?_, ?_, ?_⟩
  · intro t ht
    obtain ⟨a⟩ := t
    obtain rfl : a = true := ht
    simp [Trans.begin]
  · intro t ht
    obtain ⟨a⟩ := t
    obtain rfl : a = false := ht
    constructor
    · simp [Trans.commit]
    · simp [Trans.abort]
  · intro t ht
    obtain ⟨a⟩ := t
    obtain rfl : a = false := ht
    constructor
    · intro u hx; simp [Trans.begin, hx]
    · intro err hx; simp [Trans.begin, hx]
  · intro t ht
    obtain ⟨a⟩ := t
    obtain rfl : a = true := ht
    refine ⟨?_, ?_, ?_, ?_⟩
    · intro u hx; simp [Trans.commit, hx]
    · intro err hx; simp [Trans.commit, hx]
    · intro u hx; simp [Trans.abort, hx]
    · intro err hx; simp [Trans.abort, hx]
  · intro t l htr
    induction htr with
    | init => simp [TransState.init, openTx]
    | beginOk t t' l htr heq ih =>
      obtain ⟨-, rfl⟩ := begin_ok_inv e rf t t' heq
      simp [openTx_append]
    | beginErr t t' l er htr heq ih =>
      rw [begin_err_inv e rf t t' er heq]
      exact ih
    | commitOk t t' l htr heq ih =>
      obtain ⟨-, rfl⟩ := commit_ok_inv e rf t t' heq
      simp [openTx_append]
    | commitErr t t' l er htr heq ih =>
      rw [commit_err_inv e rf t t' er heq]
      exact ih
    | abortOk t t' l htr heq ih =>
      obtain ⟨-, rfl⟩ := abort_ok_inv e rf t t' heq
      simp [openTx_append]
    | abortErr t t' l er htr heq ih =>
      rw [abort_err_inv e rf t t' er heq]
      exact ih

/-- Witness for C9: on a concrete engine that executes transaction-control
statements successfully, begin() on an inactive Trans succeeds and activates
it. -/
theorem trans_ops_spec_witness :
    Trans.begin ddlEngine 1 ⟨false⟩ = some (.ok ⟨true⟩) :=
  ((trans_ops_spec ddlEngine 1).2.2.1 ⟨false⟩ rfl).1 ⟨"BEGIN;", 7, none, 0, 1⟩ rfl
